import Mathlib

/-!
Shallow embedding of the PMIS governance core
(`apps/api/app/policies/*.py` and `apps/api/app/tools/*.py`):
status-transition state machines, approval matrix, risk-arbitration
matrix, the patch validator composing them, and the idempotent
event-sourced approval write path.

Python dictionaries whose values are JSON scalars are modelled as
insertion-ordered association lists `List (String × String)`; Python
`None` becomes `Option`; raising becomes `Except`; the database is an
explicit record of tables threaded through the write operations.
-/

/-- Python-style dict with string keys and scalar string values,
in insertion order. -/
abbrev Dict := List (String × String)

/-- `d.get(k)` on a Python dict. -/
def dictGet (d : Dict) (k : String) : Option String :=
  (d.find? (fun p => p.1 == k)).map (fun p => p.2)

/-- `k in d` on a Python dict. -/
def dictContains (d : Dict) (k : String) : Bool :=
  d.any (fun p => p.1 == k)

/-- Set one key of a Python dict: overwrite in place if present,
else append (Python dicts preserve insertion order). -/
def dictSet (d : Dict) (k v : String) : Dict :=
  if d.any (fun p => p.1 == k) then
    d.map (fun p => if p.1 == k then (k, v) else p)
  else
    d ++ [(k, v)]

/-- `d.update(patch)` on a Python dict: shallow merge, last write wins
per key, in `patch` iteration order. -/
def dictUpdate (d : Dict) (patch : Dict) : Dict :=
  patch.foldl (fun acc p => dictSet acc p.1 p.2) d

/-- Python truthiness of an optional string (`None` and `""` are falsy),
as used by `if new_status and current_status:`. -/
def truthyO (s : Option String) : Bool :=
  match s with
  | none => false
  | some s => !(s == "")

/-- Leading-match test on character lists: the first list occurs at the
head of the second. -/
def leadMatch : List Char → List Char → Bool
  | [], _ => true
  | _ :: _, [] => false
  | p :: ps, h :: hs => p == h && leadMatch ps hs

/-- Contiguous-occurrence test on character lists. -/
def hasSubChars (pat : List Char) : List Char → Bool
  | [] => leadMatch pat []
  | h :: t => leadMatch pat (h :: t) || hasSubChars pat t

/-- Python `pat in hay` substring test (for non-empty `pat`). -/
def strContains (hay pat : String) : Bool :=
  hasSubChars pat.data hay.data

/-- Python `s.lower()` (the strings in this system are ASCII, where
`Char.toLower` agrees with Python). -/
def str_lower (s : String) : String :=
  ⟨s.data.map Char.toLower⟩

deriving instance DecidableEq for Except

/-- Python exceptions raised by the embedded operations. -/
inductive PyErr where
  | valueError (msg : String)
  | integrityError
deriving DecidableEq, Repr

/-! ## `app/tools/user_context.py` -/

/-- `Role(str, Enum)` from `user_context.py`. -/
inductive Role where
  | admin
  | analyst
  | operator
  | viewer
deriving DecidableEq, Repr

/-- The `.value` string of a `Role`. -/
def Role.value : Role → String
  | .admin => "admin"
  | .analyst => "analyst"
  | .operator => "operator"
  | .viewer => "viewer"

/-! ## Validation reasons

The Python validator accumulates free-text reason strings.  Each append
site is modelled by one constructor carrying its parameters, and
`Reason.render` reproduces the exact f-string of the source, so that the
substring scan of the source over reason text can be modelled faithfully. -/

inductive Reason where
  /-- `validator.py` lines 78-81 / 100-103. -/
  | invalidTransition (fromS toS : String) (validNext : List String)
  /-- `validator.py` line 96. -/
  | transitionRequiresApproval (fromS toS : String)
  /-- `approval_matrix.py` line 144. -/
  | noApprovalRequired (action : String)
  /-- `approval_matrix.py` line 150. -/
  | hasRequiredRole (action : String)
  /-- `approval_matrix.py` line 153; `requiredRoleNames` is the
  comma-joined role values. -/
  | roleDenial (action : String) (requiredRoleNames : String)
  /-- `validator.py` lines 142-144. -/
  | riskAssessment (impact uncertainty description : String)
deriving DecidableEq, Repr

/-- Python `repr` of a set of strings, quoting and brace-wrapping them.
Python set iteration order is unspecified; the model fixes the order in
which the transition rules are declared (no claim depends on it). -/
def renderPySet (xs : List String) : String :=
  "\x7b" ++ String.intercalate ", " (xs.map (fun s => "\x27" ++ s ++ "\x27")) ++ "\x7d"

/-- The exact reason text produced by the source at each append site. -/
def Reason.render : Reason → String
  | .invalidTransition f t vn =>
      s!"Invalid status transition: {f} → {t}. Valid next statuses: " ++ renderPySet vn
  | .transitionRequiresApproval f t =>
      s!"Transition {f} → {t} requires approval"
  | .noApprovalRequired a =>
      s!"No approval required for {a}"
  | .hasRequiredRole a =>
      s!"User has required role for {a}"
  | .roleDenial a names =>
      "Action \x27" ++ a ++ "\x27 requires one of: " ++ names
  | .riskAssessment i u d =>
      s!"Risk assessment ({i}/{u}): {d}"

/-! ## `app/policies/status_transitions.py` -/

/-- `Transition` dataclass.  The source stores enum members and looks
them up through `.value`; statuses are therefore modelled as their
value strings directly. -/
structure Transition where
  fromS : String
  toS : String
  description : String
  requiresApproval : Bool := false
  riskLevel : String := "low"
deriving DecidableEq, Repr

namespace PackageTransitions

/-- `PackageTransitions.RULES`. -/
def RULES : List Transition := [
  { fromS := "draft", toS := "submitted", description := "Submit package for review" },
  { fromS := "submitted", toS := "in_review", description := "Start formal review" },
  { fromS := "in_review", toS := "approved", description := "Approve package after review" },
  { fromS := "in_review", toS := "submitted", description := "Return to submitter for revisions" },
  { fromS := "submitted", toS := "draft", description := "Revert to draft for major changes" },
  { fromS := "approved", toS := "awarded", description := "Award package/contract",
    requiresApproval := true, riskLevel := "high" },
  { fromS := "awarded", toS := "active", description := "Activate and begin execution" },
  { fromS := "active", toS := "on_hold", description := "Pause execution temporarily",
    riskLevel := "medium" },
  { fromS := "on_hold", toS := "active", description := "Resume execution" },
  { fromS := "active", toS := "completed", description := "Mark all tasks completed" },
  { fromS := "approved", toS := "cancelled", description := "Cancel before award",
    riskLevel := "medium" },
  { fromS := "awarded", toS := "cancelled", description := "Cancel after award (contract termination)",
    requiresApproval := true, riskLevel := "high" },
  { fromS := "active", toS := "cancelled", description := "Terminate active execution",
    requiresApproval := true, riskLevel := "high" },
  { fromS := "completed", toS := "archived", description := "Archive completed package" },
  { fromS := "cancelled", toS := "archived", description := "Archive cancelled package" }]

/-- `get_valid_next_statuses`: the adjacency set of `from_status`
(the built `_TRANSITIONS` lookup agrees with filtering `RULES`). -/
def get_valid_next_statuses (fromS : String) : List String :=
  (RULES.filter (fun r => r.fromS == fromS)).map (fun r => r.toS)

/-- `is_valid`: a transition is allowed iff the edge is declared. -/
def is_valid (fromS toS : String) : Bool :=
  (get_valid_next_statuses fromS).contains toS

/-- `get_rule`: the declared rule for an edge, if any
((from, to) pairs are unique in `RULES`). -/
def get_rule (fromS toS : String) : Option Transition :=
  RULES.find? (fun r => r.fromS == fromS && r.toS == toS)

end PackageTransitions

namespace TaskTransitions

/-- `TaskTransitions.RULES`. -/
def RULES : List Transition := [
  { fromS := "pending", toS := "in_progress", description := "Start working on task" },
  { fromS := "in_progress", toS := "blocked", description := "Task blocked by external factor",
    riskLevel := "medium" },
  { fromS := "blocked", toS := "in_progress", description := "Unblock and resume work" },
  { fromS := "in_progress", toS := "review_needed", description := "Submit for review/approval" },
  { fromS := "review_needed", toS := "completed", description := "Review approved, mark complete" },
  { fromS := "review_needed", toS := "in_progress", description := "Returned from review for revisions" },
  { fromS := "in_progress", toS := "completed", description := "Mark task complete (no review needed)" },
  { fromS := "pending", toS := "cancelled", description := "Cancel before start" },
  { fromS := "in_progress", toS := "cancelled", description := "Cancel in-progress task",
    riskLevel := "medium" },
  { fromS := "blocked", toS := "cancelled", description := "Cancel blocked task" },
  { fromS := "review_needed", toS := "cancelled", description := "Cancel instead of approving" }]

/-- `get_valid_next_statuses` for tasks. -/
def get_valid_next_statuses (fromS : String) : List String :=
  (RULES.filter (fun r => r.fromS == fromS)).map (fun r => r.toS)

/-- `is_valid` for tasks. -/
def is_valid (fromS toS : String) : Bool :=
  (get_valid_next_statuses fromS).contains toS

/-- `get_rule` for tasks. -/
def get_rule (fromS toS : String) : Option Transition :=
  RULES.find? (fun r => r.fromS == fromS && r.toS == toS)

end TaskTransitions

/-! ## `app/policies/approval_matrix.py` -/

/-- `ApprovalRule` dataclass.  The required roles form a Python set;
the model lists them in declaration order. -/
structure ApprovalRule where
  action : String
  requiredRoles : List Role
  description : String
  minRolesSatisfied : Nat := 1
deriving DecidableEq, Repr

namespace ApprovalMatrix

/-- `ApprovalMatrix.RULES`. -/
def RULES : List ApprovalRule := [
  { action := "package.status:submitted", requiredRoles := [.analyst, .admin],
    description := "Submit package for review (analyst or admin)" },
  { action := "package.status:in_review", requiredRoles := [.admin],
    description := "Initiate formal review (admin only)" },
  { action := "package.status:approved", requiredRoles := [.admin],
    description := "Approve package after review (admin only)" },
  { action := "package.status:awarded", requiredRoles := [.admin],
    description := "Award package/contract (admin approval required)" },
  { action := "package.status:active", requiredRoles := [.admin, .operator],
    description := "Activate package execution (admin or operator)" },
  { action := "package.status:cancelled", requiredRoles := [.admin],
    description := "Cancel package (admin approval required, especially if active)" },
  { action := "task.status:review_needed", requiredRoles := [.analyst, .operator, .admin],
    description := "Submit task for review" },
  { action := "task.status:completed", requiredRoles := [.analyst, .operator, .admin],
    description := "Mark task complete" },
  { action := "task.status:cancelled", requiredRoles := [.operator, .admin],
    description := "Cancel task (operator or admin)" },
  { action := "package.metadata.update", requiredRoles := [.analyst, .admin],
    description := "Update package metadata" },
  { action := "package.budget.change", requiredRoles := [.admin],
    description := "Change package budget (admin only)" },
  { action := "package.scope.change", requiredRoles := [.admin],
    description := "Change package scope (admin only)" }]

/-- `get_rule`: the `_MATRIX` dict lookup (actions are unique, so the
built dict agrees with the first match over `RULES`). -/
def get_rule (action : String) : Option ApprovalRule :=
  RULES.find? (fun r => r.action == action)

/-- `", ".join(r.value for r in rule.required_roles)`; Python iterates
an unordered set, the model uses declaration order (no claim depends
on the order). -/
def renderRoleNames (roles : List Role) : String :=
  String.intercalate ", " (roles.map Role.value)

/-- `is_action_approved`: no rule means the action is open (fail-open);
with a rule, approve iff the caller holds any required role.  Returns
the `(is_approved, reason)` pair of the source. -/
def is_action_approved (action : String) (userRoles : List Role) : Bool × Reason :=
  match get_rule action with
  | none => (true, .noApprovalRequired action)
  | some rule =>
      let hasRole := userRoles.any (fun r => rule.requiredRoles.contains r)
      if hasRole then
        (true, .hasRequiredRole action)
      else
        (false, .roleDenial action (renderRoleNames rule.requiredRoles))

end ApprovalMatrix

/-! ## `app/policies/risk_arbitration.py` -/

/-- `ImpactLevel(str, Enum)`. -/
inductive ImpactLevel where
  | low
  | medium
  | high
  | critical
deriving DecidableEq, Repr

/-- The `.value` string of an `ImpactLevel`. -/
def ImpactLevel.value : ImpactLevel → String
  | .low => "low"
  | .medium => "medium"
  | .high => "high"
  | .critical => "critical"

/-- `ImpactLevel(s)` enum coercion: raises `ValueError` on any string
that is not a member value. -/
def ImpactLevel.ofString (s : String) : Except PyErr ImpactLevel :=
  if s == "low" then .ok .low
  else if s == "medium" then .ok .medium
  else if s == "high" then .ok .high
  else if s == "critical" then .ok .critical
  else .error (.valueError (s!"{s} is not a valid ImpactLevel"))

/-- `UncertaintyLevel(str, Enum)`. -/
inductive UncertaintyLevel where
  | low
  | medium
  | high
  | critical
deriving DecidableEq, Repr

/-- The `.value` string of an `UncertaintyLevel`. -/
def UncertaintyLevel.value : UncertaintyLevel → String
  | .low => "low"
  | .medium => "medium"
  | .high => "high"
  | .critical => "critical"

/-- `UncertaintyLevel(s)` enum coercion: raises `ValueError` on any
string that is not a member value. -/
def UncertaintyLevel.ofString (s : String) : Except PyErr UncertaintyLevel :=
  if s == "low" then .ok .low
  else if s == "medium" then .ok .medium
  else if s == "high" then .ok .high
  else if s == "critical" then .ok .critical
  else .error (.valueError (s!"{s} is not a valid UncertaintyLevel"))

/-- `DecisionType(str, Enum)`. -/
inductive DecisionType where
  | auto
  | confirm
  | approvalRequired
  | executiveApproval
  | escalate
deriving DecidableEq, Repr

/-- The `.value` string of a `DecisionType`. -/
def DecisionType.value : DecisionType → String
  | .auto => "auto"
  | .confirm => "confirm"
  | .approvalRequired => "approval_required"
  | .executiveApproval => "executive_approval"
  | .escalate => "escalate"

/-- `RiskArbitration` dataclass. -/
structure RiskArbitration where
  impact : ImpactLevel
  uncertainty : UncertaintyLevel
  decisionType : DecisionType
  description : String
  notificationRequired : Bool := false
deriving DecidableEq, Repr

namespace RiskMatrix

/-- The 16-entry `RiskMatrix.MATRIX` dict, as an association list in
declaration order. -/
def MATRIX : List ((ImpactLevel × UncertaintyLevel) × RiskArbitration) := [
  ((.low, .low),
   { impact := .low, uncertainty := .low, decisionType := .auto,
     description := "Low impact, well-understood → proceed automatically" }),
  ((.low, .medium),
   { impact := .low, uncertainty := .medium, decisionType := .auto,
     description := "Low impact, some unknowns → proceed with monitoring" }),
  ((.low, .high),
   { impact := .low, uncertainty := .high, decisionType := .confirm,
     description := "Low impact, high uncertainty → confirm but don\x27t block",
     notificationRequired := true }),
  ((.low, .critical),
   { impact := .low, uncertainty := .critical, decisionType := .approvalRequired,
     description := "Low impact, highly unpredictable → require approval" }),
  ((.medium, .low),
   { impact := .medium, uncertainty := .low, decisionType := .auto,
     description := "Moderate impact, well-understood → proceed" }),
  ((.medium, .medium),
   { impact := .medium, uncertainty := .medium, decisionType := .confirm,
     description := "Moderate impact/uncertainty → confirm with stakeholders",
     notificationRequired := true }),
  ((.medium, .high),
   { impact := .medium, uncertainty := .high, decisionType := .approvalRequired,
     description := "Moderate impact, high uncertainty → require formal approval" }),
  ((.medium, .critical),
   { impact := .medium, uncertainty := .critical, decisionType := .executiveApproval,
     description := "Moderate impact, critical uncertainty → escalate to leadership" }),
  ((.high, .low),
   { impact := .high, uncertainty := .low, decisionType := .approvalRequired,
     description := "High impact, well-understood → require approval" }),
  ((.high, .medium),
   { impact := .high, uncertainty := .medium, decisionType := .approvalRequired,
     description := "High impact, moderate uncertainty → require approval" }),
  ((.high, .high),
   { impact := .high, uncertainty := .high, decisionType := .executiveApproval,
     description := "High impact, high uncertainty → escalate to leadership" }),
  ((.high, .critical),
   { impact := .high, uncertainty := .critical, decisionType := .escalate,
     description := "High impact, critical uncertainty → escalate for expert review" }),
  ((.critical, .low),
   { impact := .critical, uncertainty := .low, decisionType := .executiveApproval,
     description := "Critical impact, well-understood → escalate to top leadership" }),
  ((.critical, .medium),
   { impact := .critical, uncertainty := .medium, decisionType := .executiveApproval,
     description := "Critical impact, moderate uncertainty → escalate to top leadership" }),
  ((.critical, .high),
   { impact := .critical, uncertainty := .high, decisionType := .escalate,
     description := "Critical impact, high uncertainty → escalate for expert judgment" }),
  ((.critical, .critical),
   { impact := .critical, uncertainty := .critical, decisionType := .escalate,
     description := "Critical impact, critical uncertainty → escalate immediately" })]

/-- `cls.MATRIX.get((impact, uncertainty))`. -/
def matrixGet (i : ImpactLevel) (u : UncertaintyLevel) : Option RiskArbitration :=
  (MATRIX.find? (fun e => e.1 == (i, u))).map (fun e => e.2)

/-- `get_decision`: coerces string inputs to enums (raising `ValueError`
on unrecognized values, exactly as `ImpactLevel(impact)` does in the
source) and then looks up the matrix. -/
def get_decision (impact uncertainty : String) : Except PyErr (Option RiskArbitration) := do
  let i ← ImpactLevel.ofString impact
  let u ← UncertaintyLevel.ofString uncertainty
  .ok (matrixGet i u)

/-- Body of `requires_approval` applied to an already-fetched cell:
`None` means fail-closed `True`, otherwise membership of the blocking
decision types. -/
def requires_approval_of (arb : Option RiskArbitration) : Bool :=
  match arb with
  | none => true
  | some arb =>
      arb.decisionType == .approvalRequired ||
      arb.decisionType == .executiveApproval ||
      arb.decisionType == .escalate

/-- `requires_approval`, which re-calls `get_decision` internally. -/
def requires_approval (impact uncertainty : String) : Except PyErr Bool := do
  let arb ← get_decision impact uncertainty
  .ok (requires_approval_of arb)

/-- Body of `requires_escalation` applied to an already-fetched cell. -/
def requires_escalation_of (arb : Option RiskArbitration) : Bool :=
  match arb with
  | none => true
  | some arb =>
      arb.decisionType == .executiveApproval ||
      arb.decisionType == .escalate

/-- `requires_escalation`, which re-calls `get_decision` internally. -/
def requires_escalation (impact uncertainty : String) : Except PyErr Bool := do
  let arb ← get_decision impact uncertainty
  .ok (requires_escalation_of arb)

end RiskMatrix

/-! ## `app/policies/validator.py` -/

/-- `ValidationResult` dataclass.  `reasons` keeps the structured form;
the strings of the source are recovered by `Reason.render`. -/
structure ValidationResult where
  isAllowed : Bool
  requiresApproval : Bool
  requiresEscalation : Bool
  decisionType : Option String
  reasons : List Reason
  warnings : List String
deriving DecidableEq, Repr

/-- Check 1 of `validate_patch` (lines 72-112): the status-transition
check.  `inl` is the early return on an invalid transition; `inr`
carries the accumulated reasons and `requires_approval` flag. -/
def check1 (entityType : String) (currentStatus newStatus : Option String) :
    Sum ValidationResult (List Reason × Bool) :=
  if truthyO newStatus && truthyO currentStatus then
    let ns := newStatus.getD ""
    let cs := currentStatus.getD ""
    if entityType == "package" then
      if !PackageTransitions.is_valid cs ns then
        .inl { isAllowed := false, requiresApproval := false, requiresEscalation := false,
               decisionType := none,
               reasons := [.invalidTransition cs ns (PackageTransitions.get_valid_next_statuses cs)],
               warnings := [] }
      else
        match PackageTransitions.get_rule cs ns with
        | some rule =>
            if rule.requiresApproval then
              .inr ([.transitionRequiresApproval cs ns], true)
            else
              .inr ([], false)
        | none => .inr ([], false)
    else if entityType == "task" then
      if !TaskTransitions.is_valid cs ns then
        .inl { isAllowed := false, requiresApproval := false, requiresEscalation := false,
               decisionType := none,
               reasons := [.invalidTransition cs ns (TaskTransitions.get_valid_next_statuses cs)],
               warnings := [] }
      else
        .inr ([], false)
    else
      .inr ([], false)
  else
    .inr ([], false)

/-- Action derivation of `validate_patch` (lines 115-124): priority
order status-change > metadata-update > budget-change > scope-change. -/
def deriveAction (entityType : String) (newStatus : Option String) (patch : Dict) :
    Option String :=
  if truthyO newStatus then
    some (entityType ++ ".status:" ++ newStatus.getD "")
  else if dictContains patch "metadata" then
    some (entityType ++ ".metadata.update")
  else if dictContains patch "budget" then
    some (entityType ++ ".budget.change")
  else if dictContains patch "scope" then
    some (entityType ++ ".scope.change")
  else
    none

/-- Line 156 of `validator.py`: a reason is blocking iff its rendered
text contains `"Invalid"` or `"requires roles"` as a substring. -/
def reasonBlocks (r : Reason) : Bool :=
  strContains r.render "Invalid" || strContains r.render "requires roles"

/-- `validate_patch` from `validator.py`.  The entity contributes only
its current status (read from the object or dict); the caller-supplied
impact/uncertainty are strings coerced inside `RiskMatrix`, whose
`ValueError` on malformed values propagates out of the function.
`requires_approval`/`requires_escalation` re-call `get_decision` with
the same arguments in the source; the model applies their bodies to the
cell already fetched at line 136, which `RiskMatrix.requires_agrees`
proves equivalent. -/
def validate_patch (entityType : String) (currentStatus : Option String)
    (patch : Dict) (userRoles : List Role) (impact uncertainty : String) :
    Except PyErr ValidationResult :=
  let newStatus := dictGet patch "status"
  match check1 entityType currentStatus newStatus with
  | .inl earlyResult => .ok earlyResult
  | .inr (reasons1, requiresApproval1) =>
      let action := deriveAction entityType newStatus patch
      let step2 :=
        match action with
        | some act =>
            let res := ApprovalMatrix.is_action_approved act userRoles
            if !res.1 then (reasons1 ++ [res.2], true)
            else (reasons1, requiresApproval1)
        | none => (reasons1, requiresApproval1)
      match RiskMatrix.get_decision impact uncertainty with
      | .error e => .error e
      | .ok riskDecision =>
          let step3 : List Reason × List String × Option String × Bool × Bool :=
            match riskDecision with
            | some rd =>
                let reasons : List Reason :=
                  if rd.decisionType.value != "auto" then
                    step2.1 ++ [.riskAssessment impact uncertainty rd.description]
                  else step2.1
                let warnings :=
                  if rd.notificationRequired then
                    ["Notification required for stakeholders"]
                  else []
                (reasons, warnings, some rd.decisionType.value,
                 step2.2 || RiskMatrix.requires_approval_of riskDecision,
                 RiskMatrix.requires_escalation_of riskDecision)
            | none => (step2.1, [], some "auto", step2.2, false)
          let isAllowed := (step3.1.filter reasonBlocks).length == 0
          .ok { isAllowed := isAllowed,
                requiresApproval := step3.2.2.2.1,
                requiresEscalation := step3.2.2.2.2,
                decisionType := step3.2.2.1,
                reasons := step3.1,
                warnings := step3.2.1 }

/-! ## `app/tools/models.py` (write-path tables) -/

/-- `ApprovalStatus(str, Enum)`. -/
inductive ApprovalStatus where
  | pending
  | approved
  | rejected
deriving DecidableEq, Repr

/-- The `.value` string of an `ApprovalStatus`. -/
def ApprovalStatus.value : ApprovalStatus → String
  | .pending => "pending"
  | .approved => "approved"
  | .rejected => "rejected"

/-- `EventType(str, Enum)`. -/
inductive EventType where
  | taskCreated
  | taskCompleted
  | taskEscalated
  | packagePatched
  | approvalCreated
  | approvalDecided
  | memoryStored
  | emailIngested
deriving DecidableEq, Repr

/-- Payloads of the two events written by `approve_proposal`. -/
inductive EventPayload where
  /-- `{"decision": ..., "decided_by": ..., "reason": ...}`. -/
  | approvalDecided (decision decidedBy : String) (reason : Option String)
  /-- `{"patch": ..., "approved_by": ..., "approval_id": ...}`. -/
  | packagePatched (patch : Dict) (approvedBy approvalId : String)
deriving DecidableEq, Repr

/-- A row of the `events` table (the generated uuid primary key and
timestamps carry no logic and are omitted). -/
structure Event where
  eventType : EventType
  entityType : String
  entityId : String
  packageId : Option String
  payload : EventPayload
  triggeredBy : String
  idempotencyKey : Option String
deriving DecidableEq, Repr

/-- A row of the `approvals` table. -/
structure Approval where
  id : String
  packageId : String
  patchJson : Dict
  reason : String
  requestedBy : String
  status : ApprovalStatus
  decidedBy : Option String := none
  decisionReason : Option String := none
  decidedAt : Option String := none
deriving DecidableEq, Repr

/-- A row of the `packages` table.  `metadata` is the mutable
JSON attribute map: `write_tools.py` reads and merges into
`package.metadata`, while `models.py` declares the column as `data`
(the comment there says it was renamed from metadata); the model exposes the single attribute map
the write path manipulates. -/
structure Package where
  id : String
  code : String
  title : String
  metadata : Option Dict := none
deriving DecidableEq, Repr

/-- A row of the `idempotency_logs` table (`idempotency_key` is the
primary key). -/
structure IdempotencyLog where
  idempotencyKey : String
  operation : String
  result : Dict
deriving DecidableEq, Repr

/-- The database tables touched by `approve_proposal`. -/
structure DBState where
  packages : List Package
  approvals : List Approval
  events : List Event
  idemLogs : List IdempotencyLog
deriving DecidableEq, Repr

/-- `db.query(Approval).filter_by(id=approval_id).first()`. -/
def findApproval (st : DBState) (approvalId : String) : Option Approval :=
  st.approvals.find? (fun a => a.id == approvalId)

/-- `db.query(Package).filter_by(id=package_id).first()`. -/
def findPackage (st : DBState) (packageId : String) : Option Package :=
  st.packages.find? (fun p => p.id == packageId)

/-- Persist an ORM-level mutation of one approval row (rows have unique
ids). -/
def replaceApproval (approvals : List Approval) (a : Approval) : List Approval :=
  approvals.map (fun x => if x.id == a.id then a else x)

/-- Persist an ORM-level mutation of one package row. -/
def replacePackage (packages : List Package) (p : Package) : List Package :=
  packages.map (fun x => if x.id == p.id then p else x)

/-- `True` iff some event row already carries this (non-null)
idempotency key. -/
def eventKeyUsed (st : DBState) (key : String) : Bool :=
  st.events.any (fun e => e.idempotencyKey == some key)

/-! ## `app/tools/idempotency.py` -/

/-- `get_idempotent_result`: the cached result for a key, if the key
was already processed. -/
def get_idempotent_result (st : DBState) (idempotencyKey : String) : Option Dict :=
  (st.idemLogs.find? (fun l => l.idempotencyKey == idempotencyKey)).map
    (fun l => l.result)

/-- `store_idempotent_result`: inserts the `(key, operation, result)`
row and commits; a duplicate primary key raises `IntegrityError`, which
is swallowed after a rollback (the source comments that a duplicate key is fine).  In
both cases the function returns its own `result` argument. -/
def store_idempotent_result (st : DBState) (idempotencyKey operation : String)
    (result : Dict) : Dict × DBState :=
  if (st.idemLogs.find? (fun l => l.idempotencyKey == idempotencyKey)).isSome then
    (result, st)
  else
    (result, { st with idemLogs := st.idemLogs ++
      [{ idempotencyKey := idempotencyKey, operation := operation, result := result }] })

/-- `check_idempotency`: `(is_new, cached_result)`. -/
def check_idempotency (st : DBState) (idempotencyKey : String) :
    Bool × Option Dict :=
  match get_idempotent_result st idempotencyKey with
  | some result => (false, some result)
  | none => (true, none)

/-! ## `app/tools/write_tools.py` — `approve_proposal` -/

/-- Commit of the decide transaction: the pending approval update,
package update and new event rows are flushed together.  `models.py`
declares `UniqueConstraint("idempotency_key", name="uq_event_idempotency")`
on `events`, so the commit raises `IntegrityError` — and persists
nothing — whenever the (non-null) idempotency key of a new event collides
with an existing event row or with another event in the same flush. -/
def commitDecision (st : DBState) (approvals2 : List Approval)
    (packages2 : List Package) (newEvents : List Event) : Except PyErr DBState :=
  let newKeys := newEvents.filterMap (fun e => e.idempotencyKey)
  if newKeys.any (fun k => eventKeyUsed st k) ||
      newKeys.length != (newKeys.eraseDups).length then
    .error .integrityError
  else
    .ok { st with approvals := approvals2, packages := packages2,
                  events := st.events ++ newEvents }

/-- `approve_proposal` from `write_tools.py` (lines 211-300), with the
wall-clock time of `datetime.utcnow().isoformat()` supplied as `now`.
Returns the result dict and the database state after the call; a raised
exception leaves the persisted state unchanged (a failed commit rolls
the transaction back). -/
def approve_proposal (st : DBState) (approvalId decidedBy decision : String)
    (reason : Option String) (idempotencyKey : String) (userId : String)
    (now : String) : Except PyErr Dict × DBState :=
  -- Check idempotency
  match get_idempotent_result st idempotencyKey with
  | some cached => (.ok cached, st)
  | none =>
    -- Verify approval exists
    match findApproval st approvalId with
    | none => (.error (.valueError s!"Approval {approvalId} not found"), st)
    | some approval =>
      if approval.status != ApprovalStatus.pending then
        (.error (.valueError (s!"Approval {approvalId} already " ++ approval.status.value)), st)
      else
        let approvalBase := { approval with
          decidedBy := some decidedBy,
          decisionReason := reason, decidedAt := some now }
        let decisionEvent : Event :=
          { eventType := .approvalDecided, entityType := "approval",
            entityId := approvalId, packageId := some approval.packageId,
            payload := .approvalDecided decision decidedBy reason,
            triggeredBy := userId, idempotencyKey := some idempotencyKey }
        let branch : Approval × List Package × List Event :=
          if str_lower decision == "approved" then
            let approval2 := { approvalBase with status := ApprovalStatus.approved }
            -- Apply patch to package: merge patch into the attribute map
            let packages2 :=
              match findPackage st approval.packageId with
              | some pkg =>
                  replacePackage st.packages
                    { pkg with
                      metadata := some (dictUpdate (pkg.metadata.getD []) approval.patchJson) }
              | none => st.packages
            let patchEvent : Event :=
              { eventType := .packagePatched, entityType := "package",
                entityId := approval.packageId, packageId := some approval.packageId,
                payload := .packagePatched approval.patchJson decidedBy approvalId,
                triggeredBy := userId, idempotencyKey := some idempotencyKey }
            (approval2, packages2, [patchEvent, decisionEvent])
          else
            ({ approvalBase with status := ApprovalStatus.rejected }, st.packages,
             [decisionEvent])
        match commitDecision st (replaceApproval st.approvals branch.1)
            branch.2.1 branch.2.2 with
        | .error e => (.error e, st)
        | .ok st2 =>
            let result : Dict :=
              [("approval_id", approvalId), ("status", branch.1.status.value),
               ("decision", decision), ("decided_at", now)]
            let stored := store_idempotent_result st2 idempotencyKey "approve_proposal" result
            (.ok stored.1, stored.2)

/-! ## Concrete database fixtures used by the closed theorems -/

/-- A package with no attributes yet, a PENDING approval proposing a
patch on it, no events and no idempotency records (mirrors the setup of
`test_approve_proposal_applies_patch`). -/
def stC2 : DBState :=
  { packages := [{ id := "P1", code := "PKG-WRT-001", title := "Write Test Package" }],
    approvals := [{ id := "A1", packageId := "P1", patchJson := [("version", "2.0")],
                    reason := "Update package version", requestedBy := "user_req",
                    status := .pending }],
    events := [], idemLogs := [] }

/-- Same shape as `stC2` with the metadata patch used by the repository
approval-workflow test. -/
def stC3 : DBState :=
  { packages := [{ id := "P3", code := "PKG-WRT-003", title := "Patch Target" }],
    approvals := [{ id := "A3", packageId := "P3", patchJson := [("metadata", "updated")],
                    reason := "Update metadata", requestedBy := "user_req",
                    status := .pending }],
    events := [], idemLogs := [] }

/-- The already-decided approval used against further decide calls. -/
def aC5 : Approval :=
  { id := "A5", packageId := "P5", patchJson := [("x", "1")], reason := "r",
    requestedBy := "u", status := .approved, decidedBy := some "admin_001",
    decisionReason := some "ok", decidedAt := some "t0" }

/-- A database whose only approval is already APPROVED. -/
def stC5 : DBState :=
  { packages := [{ id := "P5", code := "PKG-5", title := "Pkg5" }],
    approvals := [aC5], events := [], idemLogs := [] }

/-- A database whose idempotency store already holds key `K6` with the
result of the winner. -/
def stC6 : DBState :=
  { packages := [], approvals := [], events := [],
    idemLogs := [{ idempotencyKey := "K6", operation := "approve_proposal",
                   result := [("v", "1")] }] }

/-- The PENDING approval used for the non-approved-decision theorem. -/
def aC10 : Approval :=
  { id := "A10", packageId := "P10", patchJson := [("scope", "wide")],
    reason := "r10", requestedBy := "u10", status := .pending }

/-- A database with one PENDING approval and a fresh key `K10`. -/
def stC10 : DBState :=
  { packages := [{ id := "P10", code := "PKG-10", title := "Pkg10" }],
    approvals := [aC10], events := [], idemLogs := [] }

/-! ## Theorems -/

/-- Helper: `requires_approval` / `requires_escalation` re-call
`get_decision` with the same arguments, so applying their bodies to the
cell fetched once (as `validate_patch` does in the model) agrees with
the repeated calls of the source. -/
theorem requires_agrees_with_cell (impact uncertainty : String)
    (arb : Option RiskArbitration)
    (h : RiskMatrix.get_decision impact uncertainty = .ok arb) :
    RiskMatrix.requires_approval impact uncertainty =
      .ok (RiskMatrix.requires_approval_of arb) ∧
    RiskMatrix.requires_escalation impact uncertainty =
      .ok (RiskMatrix.requires_escalation_of arb) := by
  constructor <;>
    simp [RiskMatrix.requires_approval, RiskMatrix.requires_escalation, h, bind,
          Except.bind]

/-- Claim C1, counterexample: for entity_type `package`, current status
APPROVED, patch `{status: AWARDED}`, roles `{ANALYST}`, impact HIGH and
uncertainty HIGH, `validate_patch` does NOT return
`is_allowed=false, requires_approval=true, requires_escalation=false`
as claimed. -/
theorem C1_counterexample :
    ¬ ((validate_patch "package" (some "approved") [("status", "awarded")]
          [Role.analyst] "high" "high").map
        (fun r => (r.isAllowed, r.requiresApproval, r.requiresEscalation)) =
      .ok (false, true, false)) := by
  decide

/-- Claim C1, amended: in that scenario the result has
`is_allowed=true` (the blocking scan of line 156 matches only reason
text containing "Invalid" or "requires roles", and the role-denial
reason reads "requires one of:", so it never blocks),
`requires_approval=true`, and `requires_escalation=true` (HIGH/HIGH →
EXECUTIVE_APPROVAL, which `requires_escalation` counts as requiring
escalation). -/
theorem C1_amended :
    validate_patch "package" (some "approved") [("status", "awarded")]
        [Role.analyst] "high" "high" =
      .ok { isAllowed := true, requiresApproval := true, requiresEscalation := true,
            decisionType := some "executive_approval",
            reasons := [.transitionRequiresApproval "approved" "awarded",
                        .roleDenial "package.status:awarded" "admin",
                        .riskAssessment "high" "high"
                          "High impact, high uncertainty → escalate to leadership"],
            warnings := [] } := by
  decide

/-- Claim C2, evaluation at the failing input: deciding a PENDING
approval with decision "approved" adds both the PACKAGE_PATCHED and the
APPROVAL_DECIDED event with the same idempotency key, so the commit
violates `uq_event_idempotency` and the call raises `IntegrityError`,
persisting nothing — no result is cached, no event is written and the
entity is not mutated, and every retry with the same key fails the same
way instead of yielding three identical successful results. -/
theorem C2_code_bug_eval :
    approve_proposal stC2 "A1" "admin_001" "approved" (some "LGTM") "K" "admin_001" "t1" =
      (.error .integrityError, stC2) ∧
    stC2.events = [] ∧ stC2.idemLogs = [] := by
  decide

/-- Claim C3, evaluation at the failing input: the "approved" branch of
the decide operation never commits (both of its events carry the same
idempotency key under the `uq_event_idempotency` unique constraint), so
the patch is not merged into the attribute map of the package and no
PACKAGE_PATCHED event is appended. -/
theorem C3_code_bug_eval :
    approve_proposal stC3 "A3" "admin_001" "approved" (some "LGTM") "K3" "admin_001" "t1" =
      (.error .integrityError, stC3) ∧
    stC3.packages.map (fun p => p.metadata) = [none] ∧
    stC3.events.filter (fun e => e.eventType == EventType.packagePatched) = [] := by
  decide

/-- Claim C4, evaluation at the failing input: a malformed impact or
uncertainty string makes `validate_patch` raise `ValueError` from the
enum coercion inside `RiskMatrix.get_decision`, instead of returning
the fail-closed `requires_approval=true, requires_escalation=true`
result the specification requires. -/
theorem C4_code_bug_eval :
    validate_patch "package" (some "draft") [] [Role.admin] "bogus" "low" =
      .error (.valueError "bogus is not a valid ImpactLevel") ∧
    validate_patch "package" (some "draft") [] [Role.admin] "low" "wat" =
      .error (.valueError "wat is not a valid UncertaintyLevel") := by
  decide

/-- Claim C8, evaluation at the failing input: the MATRIX cell for
(LOW impact, CRITICAL uncertainty) carries decision type
APPROVAL_REQUIRED — not CONFIRM as the design, the spec table and the
repository test `test_low_impact_critical_uncertainty_confirm`
state — so `requires_approval(LOW, CRITICAL)` is `true`, not `false`. -/
theorem C8_code_bug_eval :
    (RiskMatrix.get_decision "low" "critical").map
        (Option.map (fun a => a.decisionType)) =
      .ok (some DecisionType.approvalRequired) ∧
    RiskMatrix.requires_approval "low" "critical" = .ok true := by
  decide

/-- Claim C6, counterexample: storing under a key that already exists
leaves the stored record (the winner result `[("v","1")]`) unchanged
but returns the own argument `[("v","2")]` of the caller, not the
cached result as claimed. -/
theorem C6_counterexample :
    store_idempotent_result stC6 "K6" "approve_proposal" [("v", "2")] =
      ([("v", "2")], stC6) ∧
    get_idempotent_result stC6 "K6" = some [("v", "1")] ∧
    ([("v", "2")] : Dict) ≠ [("v", "1")] := by
  decide

/-- Claim C6, amended: for every key already present in the idempotency
store, a subsequent `store_idempotent_result` call leaves the stored
record unchanged and returns the own result argument of the caller without
error (the `IntegrityError` of the duplicate insert is swallowed after
a rollback). -/
theorem C6_amended (st : DBState) (key operation : String) (result : Dict)
    (h : (st.idemLogs.find? (fun l => l.idempotencyKey == key)).isSome) :
    store_idempotent_result st key operation result = (result, st) := by
  simp [store_idempotent_result, h]

/-- Witness for `C6_amended` at the concrete store `stC6`. -/
theorem C6_amended_witness :
    store_idempotent_result stC6 "K6" "approve_proposal" [("w", "3")] =
      ([("w", "3")], stC6) :=
  C6_amended stC6 "K6" "approve_proposal" [("w", "3")] (by decide)

/-- Claim C5: once an approval is decided (status no longer PENDING),
any further decide attempt with a fresh idempotency key raises
`ValueError` — it never silently succeeds — and returns with the
database state unchanged (no entity mutation, no new events, no new
idempotency record). -/
theorem C5_decided_approval_is_terminal (st : DBState)
    (approvalId decidedBy decision : String) (reason : Option String)
    (key userId now : String) (a : Approval)
    (hidem : st.idemLogs.find? (fun l => l.idempotencyKey == key) = none)
    (hfind : findApproval st approvalId = some a)
    (hstatus : a.status ≠ ApprovalStatus.pending) :
    approve_proposal st approvalId decidedBy decision reason key userId now =
      (.error (.valueError (s!"Approval {approvalId} already " ++ a.status.value)), st) := by
  simp [approve_proposal, get_idempotent_result, hidem, hfind, hstatus]

/-- Witness for `C5_decided_approval_is_terminal` on the concrete
already-APPROVED approval `aC5`. -/
theorem C5_witness :
    approve_proposal stC5 "A5" "admin_002" "approved" none "K5" "admin_002" "t2" =
      (.error (.valueError "Approval A5 already approved"), stC5) :=
  C5_decided_approval_is_terminal stC5 "A5" "admin_002" "approved" none "K5"
    "admin_002" "t2" aC5 (by decide) (by decide) (by decide)

/-- Claim C7: whenever the patch proposes a status change and the
transition is absent from the matching transition registry,
`validate_patch` returns immediately with `is_allowed=false`, no
approval or escalation flags, a `None` decision type, and a single
reason naming the invalid edge and the valid next statuses; neither the
approval-matrix nor the risk check runs (the result holds for every
role set and every impact/uncertainty string, malformed ones
included). -/
theorem C7_invalid_transition_short_circuit (patch : Dict) (cs ns : String)
    (roles : List Role) (impact uncertainty : String)
    (hns : dictGet patch "status" = some ns) (hne : ns ≠ "") (hcs : cs ≠ "") :
    (PackageTransitions.is_valid cs ns = false →
      validate_patch "package" (some cs) patch roles impact uncertainty =
        .ok { isAllowed := false, requiresApproval := false,
              requiresEscalation := false, decisionType := none,
              reasons := [.invalidTransition cs ns
                (PackageTransitions.get_valid_next_statuses cs)],
              warnings := [] }) ∧
    (TaskTransitions.is_valid cs ns = false →
      validate_patch "task" (some cs) patch roles impact uncertainty =
        .ok { isAllowed := false, requiresApproval := false,
              requiresEscalation := false, decisionType := none,
              reasons := [.invalidTransition cs ns
                (TaskTransitions.get_valid_next_statuses cs)],
              warnings := [] }) := by
  constructor <;> intro hinv <;>
    simp [validate_patch, check1, truthyO, hns, hinv, hne, hcs]

/-- Witness for `C7_invalid_transition_short_circuit` on the invalid
Package edge DRAFT → ACTIVE. -/
theorem C7_witness :
    validate_patch "package" (some "draft") [("status", "active")]
        [Role.analyst] "low" "low" =
      .ok { isAllowed := false, requiresApproval := false,
            requiresEscalation := false, decisionType := none,
            reasons := [.invalidTransition "draft" "active" ["submitted"]],
            warnings := [] } :=
  (C7_invalid_transition_short_circuit [("status", "active")] "draft" "active"
    [Role.analyst] "low" "low" (by decide) (by decide) (by decide)).1 (by decide)

/-- Claim C9: an action with no registered rule is approved for every
caller role set (fail-open), and an action with a rule is approved iff
the roles of the caller intersect the required roles of the rule. -/
theorem C9_open_actions_and_role_intersection (action : String)
    (userRoles : List Role) :
    (ApprovalMatrix.get_rule action = none →
      (ApprovalMatrix.is_action_approved action userRoles).1 = true) ∧
    ∀ rule, ApprovalMatrix.get_rule action = some rule →
      ((ApprovalMatrix.is_action_approved action userRoles).1 = true ↔
        ∃ r, r ∈ userRoles ∧ r ∈ rule.requiredRoles) := by
  constructor
  · intro h
    simp [ApprovalMatrix.is_action_approved, h]
  · intro rule h
    by_cases hx : ∃ r, r ∈ userRoles ∧ r ∈ rule.requiredRoles
    · simp [ApprovalMatrix.is_action_approved, h, hx]
    · simp [ApprovalMatrix.is_action_approved, h, hx]

/-- Witness for `C9_open_actions_and_role_intersection`: the
unregistered action `package.title.update` is open even for an empty
role set, and the registered action `package.status:awarded` is
approved for an ADMIN caller. -/
theorem C9_witness :
    (ApprovalMatrix.is_action_approved "package.title.update" []).1 = true ∧
    ((ApprovalMatrix.is_action_approved "package.status:awarded" [Role.admin]).1 = true ↔
      ∃ r, r ∈ [Role.admin] ∧
        r ∈ ({ action := "package.status:awarded", requiredRoles := [Role.admin],
               description := "Award package/contract (admin approval required)" } :
               ApprovalRule).requiredRoles) :=
  ⟨(C9_open_actions_and_role_intersection "package.title.update" []).1 (by decide),
   (C9_open_actions_and_role_intersection "package.status:awarded" [Role.admin]).2
     { action := "package.status:awarded", requiredRoles := [Role.admin],
       description := "Award package/contract (admin approval required)" }
     (by decide)⟩

/-- Claim C10: any decision string whose lowercase form is not exactly
"approved" (e.g. "foo", not only "rejected") takes the rejection
branch: the approval is marked REJECTED, a single APPROVAL_DECIDED
event carrying the decision string is appended, the idempotency result
is stored, and no package is mutated. -/
theorem C10_non_approved_decision_rejects (st : DBState)
    (approvalId decidedBy decision : String) (reason : Option String)
    (key userId now : String) (a : Approval)
    (hidem : st.idemLogs.find? (fun l => l.idempotencyKey == key) = none)
    (hfind : findApproval st approvalId = some a)
    (hpending : a.status = ApprovalStatus.pending)
    (hdec : str_lower decision ≠ "approved")
    (hkey : eventKeyUsed st key = false) :
    approve_proposal st approvalId decidedBy decision reason key userId now =
      (.ok [("approval_id", approvalId), ("status", "rejected"),
            ("decision", decision), ("decided_at", now)],
       { st with
         approvals := replaceApproval st.approvals
           { a with
             status := ApprovalStatus.rejected, decidedBy := some decidedBy,
             decisionReason := reason, decidedAt := some now },
         events := st.events ++
           [{ eventType := .approvalDecided, entityType := "approval",
              entityId := approvalId, packageId := some a.packageId,
              payload := .approvalDecided decision decidedBy reason,
              triggeredBy := userId, idempotencyKey := some key }],
         idemLogs := st.idemLogs ++
           [{ idempotencyKey := key, operation := "approve_proposal",
              result := [("approval_id", approvalId), ("status", "rejected"),
                         ("decision", decision), ("decided_at", now)] }] }) := by
  have hc2 : ¬ ∃ x ∈ st.idemLogs, x.idempotencyKey = key := by
    rintro ⟨x, hx, h2⟩
    have h := List.find?_eq_none.mp hidem x hx
    apply h
    simp [h2]
  have e1 : ([key].eraseDups).length = 1 := rfl
  simp [approve_proposal, get_idempotent_result, hidem, hfind, hpending, hdec,
        commitDecision, store_idempotent_result, hkey, hc2, e1,
        ApprovalStatus.value]

/-- Witness for `C10_non_approved_decision_rejects` at the arbitrary
decision string "foo". -/
theorem C10_witness :
    approve_proposal stC10 "A10" "admin_001" "foo" none "K10" "admin_001" "t1" =
      (.ok [("approval_id", "A10"), ("status", "rejected"),
            ("decision", "foo"), ("decided_at", "t1")],
       { stC10 with
         approvals := replaceApproval stC10.approvals
           { aC10 with
             status := ApprovalStatus.rejected, decidedBy := some "admin_001",
             decisionReason := none, decidedAt := some "t1" },
         events := stC10.events ++
           [{ eventType := .approvalDecided, entityType := "approval",
              entityId := "A10", packageId := some aC10.packageId,
              payload := .approvalDecided "foo" "admin_001" none,
              triggeredBy := "admin_001", idempotencyKey := some "K10" }],
         idemLogs := stC10.idemLogs ++
           [{ idempotencyKey := "K10", operation := "approve_proposal",
              result := [("approval_id", "A10"), ("status", "rejected"),
                         ("decision", "foo"), ("decided_at", "t1")] }] }) :=
  C10_non_approved_decision_rejects stC10 "A10" "admin_001" "foo" none "K10"
    "admin_001" "t1" aC10 (by decide) (by decide) (by decide) (by decide) (by decide)
